import Mathlib

/-!
Verification of the pkgharvest pipeline (linux-pkg-harvest).

This file shallowly embeds the parts of the repository that the checked
properties talk about:

* `FedoraCollector._parse_repomd` / `_parse_rpm_metadata` / `_fetch_repodata`
  (src/pkgharvest/collectors/rpm/fedora.py),
* `LibYearCalculator.calculate_libyear` (src/pkgharvest/core/libyear_calculator.py),
* the enrichment loop of `DataProcessor.save_to_database`
  (src/pkgharvest/core/data_processor.py),
* `DatabaseManager.save_packages_batch` together with the transaction
  semantics of `DatabaseConnection.get_cursor`
  (src/pkgharvest/database/db_manager.py, db_connection.py).

Python floats are modelled by exact rationals (`ℚ`); Python `int` by `ℤ`;
`None` by `Option.none`.  Network and database I/O are modelled by explicit
oracle parameters recording the responses a run observes.
-/

namespace PkgHarvest

/-! ### Calendar dates

Python's `datetime.date` values are modelled by a year/month/day triple.
`datetime.fromtimestamp(ts)` converts epoch seconds using the *local*
timezone of the host, so the embedding keeps the host's UTC offset (in
seconds) as an explicit parameter. -/

structure CDate where
  year : Int
  month : Int
  day : Int
  deriving DecidableEq, Repr

/-- Day number (days since 1970-01-01) of a proleptic-Gregorian calendar
date; the standard civil-from-days/days-from-civil pair used by every
mainstream date library, matching Python's `datetime.date.toordinal`
shifted to the Unix epoch. -/
def daysFromCivil (y m d : Int) : Int :=
  let y' := y - (if m ≤ 2 then 1 else 0)
  let era := Int.fdiv y' 400
  let yoe := y' - era * 400
  let mp := if m > 2 then m - 3 else m + 9
  let doy := Int.fdiv (153 * mp + 2) 5 + d - 1
  let doe := yoe * 365 + Int.fdiv yoe 4 - Int.fdiv yoe 100 + doy
  era * 146097 + doe - 719468

/-- Inverse of `daysFromCivil`: the calendar date of a day number. -/
def civilFromDays (z : Int) : CDate :=
  let z' := z + 719468
  let era := Int.fdiv z' 146097
  let doe := z' - era * 146097
  let yoe := Int.fdiv (doe - Int.fdiv doe 1460 + Int.fdiv doe 36524 - Int.fdiv doe 146096) 365
  let y := yoe + era * 400
  let doy := doe - (365 * yoe + Int.fdiv yoe 4 - Int.fdiv yoe 100)
  let mp := Int.fdiv (5 * doy + 2) 153
  let d := doy - Int.fdiv (153 * mp + 2) 5 + 1
  let m := mp + (if mp < 10 then 3 else -9)
  ⟨y + (if m ≤ 2 then 1 else 0), m, d⟩

/-- Day number of a `CDate`. -/
def CDate.toDays (d : CDate) : Int := daysFromCivil d.year d.month d.day

/-! ### XML documents

`xml.etree.ElementTree` elements, as used by `_parse_repomd` and
`_parse_rpm_metadata`.  A parsed element has a (namespace-qualified) tag,
attributes, child elements and optional text.  `find`/`findall` with a
simple tag path search direct children only, which is all the collector
uses. -/

inductive XElem : Type where
  | mk : String → List (String × String) → List XElem → Option String → XElem

/-- The (qualified) tag of an element. -/
def XElem.tag : XElem → String
  | .mk t _ _ _ => t

/-- The attribute list of an element. -/
def XElem.attrs : XElem → List (String × String)
  | .mk _ a _ _ => a

/-- The child elements of an element. -/
def XElem.children : XElem → List XElem
  | .mk _ _ c _ => c

/-- The text of an element (`None` when the element has no text). -/
def XElem.text : XElem → Option String
  | .mk _ _ _ t => t

/-- `elem.get(key)`: attribute lookup, `None` when absent. -/
def XElem.attrGet (e : XElem) (k : String) : Option String :=
  (e.attrs.find? (fun p => p.1 == k)).map (fun p => p.2)

/-- `elem.find(tag)`: first direct child with the given qualified tag. -/
def XElem.findChild (e : XElem) (t : String) : Option XElem :=
  e.children.find? (fun c => c.tag == t)

/-- `elem.findall(tag)`: all direct children with the given qualified tag. -/
def XElem.findAll (e : XElem) (t : String) : List XElem :=
  e.children.filter (fun c => c.tag == t)

/-- ElementTree stores a namespaced tag as the URI in braces followed by
the local name; `qualTag true` is the `rpm:` prefix of `_parse_rpm_metadata`
(namespace `http://linux.duke.edu/metadata/common`), `qualTag false` the
bare tag of its fallback queries. -/
def qualTag (ns : Bool) (t : String) : String :=
  if ns then "\x7bhttp://linux.duke.edu/metadata/common\x7d" ++ t else t

/-- Python `str(x)` on an optional string, as produced by an f-string:
`None` prints as `"None"`. -/
def pyStr : Option String → String
  | none => "None"
  | some s => s

/-- `elem.text if elem is not None else ""`: the idiom `_parse_rpm_metadata`
uses for name/description/url texts.  An absent element gives the Python
string `""`; a present element gives its text, which may be `None`. -/
def pyText : Option XElem → Option String
  | none => some ""
  | some e => e.text

/-- Digit-string to number; `none` on an empty list or any non-digit. -/
def charsToNat? (l : List Char) : Option Nat :=
  if l.isEmpty then none
  else if l.all Char.isDigit then
    some (l.foldl (fun acc c => acc * 10 + (c.toNat - 48)) 0)
  else none

/-- Optional sign followed by digits. -/
def charsToInt? (l : List Char) : Option Int :=
  match l with
  | '-' :: r => (charsToNat? r).map (fun n => -(n : Int))
  | '+' :: r => (charsToNat? r).map (fun n => (n : Int))
  | _ => (charsToNat? l).map (fun n => (n : Int))

/-- Strip leading and trailing whitespace. -/
def trimChars (l : List Char) : List Char :=
  ((l.dropWhile Char.isWhitespace).reverse.dropWhile Char.isWhitespace).reverse

/-- Python `int(s)` on a string: optional surrounding whitespace, optional
sign, decimal digits; any other input raises `ValueError` (modelled as
`none`). -/
def pyInt? (s : String) : Option Int :=
  charsToInt? (trimChars s.data)

/-! ### Package records

The package dictionaries built by `FedoraCollector._parse_rpm_metadata`
(and later mutated in place by `DataProcessor.save_to_database`).  Every
key the collector writes is a field; values that Python may set to `None`
are `Option`s.  `collector_name` and `distribution_version` are only added
by the enrichment step, so they start out absent. -/

structure PackageData where
  package_name : String
  display_name : String
  version : Option String
  description : Option String
  website : Option String
  source_url : String
  system_release_date : Option CDate
  upstream_version : Option String
  upstream_release_date : Option CDate
  libyear : Option ℚ
  days_outdated : Option Int
  language : Option String
  is_outdated : Bool
  fedora_version : String
  repo_name : String
  collector_name : Option String
  distribution_version : Option String
  deriving DecidableEq, Repr

/-! ### `_parse_rpm_metadata`

The per-element body of the two parsing loops in
`FedoraCollector._parse_rpm_metadata` (fedora.py lines 255-328 for the
namespaced pass, 338-402 for the unnamespaced fallback; the two bodies are
identical up to the tag qualification, selected here by `ns`).  `tz` is
the host's UTC offset in seconds: the source converts a build timestamp
with `datetime.fromtimestamp`, which uses the host's local timezone.
`su` models `self._build_source_url(·, version)`, whose output depends
only on configuration.  A `none` result is an element that was skipped,
whether by an explicit `continue` or by the per-element exception handler
(which a non-numeric build timestamp triggers via `int(...)`). -/

/-- Build-time extraction (fedora.py lines 291-296): `none` models the
`ValueError` from `int` on a malformed timestamp (dropping the element),
`some none` a missing timestamp, and `some (some d)` the local calendar
date of the epoch timestamp. -/
def buildTime (ns : Bool) (tz : Int) (e : XElem) : Option (Option CDate) :=
  match e.findChild (qualTag ns "time") with
  | none => some none
  | some t =>
    match t.attrGet "build" with
    | none => some none
    | some s =>
      if s == "" then some none
      else
        match pyInt? s with
        | none => none
        | some n => some (some (civilFromDays (Int.fdiv (n + tz) 86400)))

/-- The architecture filter of `_parse_rpm_metadata` (lines 264-269):
an element is kept iff its `arch` child is absent or has text `"src"`
(the source skips only when `arch_elem is not None and
arch_elem.text != 'src'`). -/
def archOk (ns : Bool) (e : XElem) : Bool :=
  match e.findChild (qualTag ns "arch") with
  | none => true
  | some a => a.text == some "src"

/-- Whether the element's name is missing or empty, i.e. the
`if not package_name: continue` guard (line 279) fires: the name element
is absent (giving `""`), has no text (giving `None`) or has empty text. -/
def nameBlank (ns : Bool) (e : XElem) : Bool :=
  match pyText (e.findChild (qualTag ns "name")) with
  | none => true
  | some nm => nm == ""

/-- One iteration of a parsing loop of `_parse_rpm_metadata`. -/
def processElem (ns : Bool) (tz : Int) (fv rn : String) (su : String → String)
    (e : XElem) : Option PackageData :=
  if !(e.attrGet "type" == some "rpm") then none
  else if !(archOk ns e) then none
  else
    match pyText (e.findChild (qualTag ns "name")) with
    | none => none
    | some nm =>
      if nm == "" then none
      else
        let verEl := e.findChild (qualTag ns "version")
        let pkgVersion : Option String :=
          match verEl with
          | none => some ""
          | some v => v.attrGet "ver"
        let pkgRelease : Option String :=
          match verEl with
          | none => some ""
          | some v => v.attrGet "rel"
        let fullVersion : Option String :=
          match pkgRelease with
          | none => pkgVersion
          | some r => if r == "" then pkgVersion else some (pyStr pkgVersion ++ "-" ++ r)
        match buildTime ns tz e with
        | none => none
        | some bt =>
          some
            { package_name := nm
              display_name := nm
              version := fullVersion
              description := pyText (e.findChild (qualTag ns "description"))
              website := pyText (e.findChild (qualTag ns "url"))
              source_url := su nm
              system_release_date := bt
              upstream_version := none
              upstream_release_date := none
              libyear := none
              days_outdated := none
              language := none
              is_outdated := false
              fedora_version := fv
              repo_name := rn
              collector_name := none
              distribution_version := none }

/-- `root.findall('rpm:package', ns)` (line 244). -/
def nsPackages (root : XElem) : List XElem :=
  root.findAll (qualTag true "package")

/-- `root.findall('package')` (lines 247 and 333). -/
def plainPackages (root : XElem) : List XElem :=
  root.findAll (qualTag false "package")

/-- The element list the first loop iterates over: the namespaced query's
matches, or — only when that query matched nothing — the unnamespaced
query's matches (lines 244-247). -/
def firstPassElems (root : XElem) : List XElem :=
  if (nsPackages root).isEmpty then plainPackages root else nsPackages root

/-- The records produced by the first loop, which always uses namespaced
child lookups (lines 255-328). -/
def firstPassPackages (tz : Int) (fv rn : String) (su : String → String)
    (root : XElem) : List PackageData :=
  (firstPassElems root).filterMap (processElem true tz fv rn su)

/-- The condition under which the unnamespaced fallback loop runs:
`if not packages:` after the first loop (line 331) — the first pass
produced zero records. -/
def fallbackRan (tz : Int) (fv rn : String) (su : String → String)
    (root : XElem) : Bool :=
  (firstPassPackages tz fv rn su root).isEmpty

/-- `FedoraCollector._parse_rpm_metadata` on an already-parsed document. -/
def parseRpmMetadata (tz : Int) (fv rn : String) (su : String → String)
    (root : XElem) : List PackageData :=
  if fallbackRan tz fv rn su root then
    (plainPackages root).filterMap (processElem false tz fv rn su)
  else firstPassPackages tz fv rn su root

/-! ### `_parse_repomd` and `_fetch_repodata` -/

/-- Tag in the `repo` namespace of repomd.xml
(`http://linux.duke.edu/metadata/repo`, fedora.py line 204). -/
def repoTag (ns : Bool) (t : String) : String :=
  if ns then "\x7bhttp://linux.duke.edu/metadata/repo\x7d" ++ t else t

/-- One scan loop of `_parse_repomd` (lines 206-210 namespaced, 213-217
plain): the first `data` child of type `"primary"` that has a `location`
child makes the function return that location's `href` attribute — which
is itself `None` when the attribute is absent.  `none` means the loop fell
through. -/
def repomdScan (ns : Bool) (root : XElem) : Option (Option String) :=
  (root.findAll (repoTag ns "data")).findSome? (fun d =>
    if d.attrGet "type" == some "primary" then
      (d.findChild (repoTag ns "location")).map (fun loc => loc.attrGet "href")
    else none)

/-- `FedoraCollector._parse_repomd`.  The argument is the result of
`ET.fromstring`: `none` when the manifest bytes failed to parse (the
exception is caught and `None` returned, lines 219-222). -/
def parseRepomd (doc : Option XElem) : Option String :=
  match doc with
  | none => none
  | some root =>
    match repomdScan true root with
    | some href => href
    | none =>
      match repomdScan false root with
      | some href => href
      | none => none

/-- Whether a manifest document has an entry of type `"primary"` (under
either the namespaced or the plain `data` tag). -/
def hasPrimaryEntry (root : XElem) : Bool :=
  root.children.any (fun d =>
    (d.tag == repoTag true "data" || d.tag == repoTag false "data") &&
      d.attrGet "type" == some "primary")

/-- `FedoraCollector._fetch_repodata`.  Network and decompression are
modelled by their observed outcomes: `repomdResult` is the fetched and
XML-parsed repomd.xml (`none`: the fetch failed after all retries;
`some none`: fetched but not parseable), and `primaryFetch loc` likewise
the fetched, gunzipped and parsed primary listing at location `loc`
(`some none` also covers a corrupt gzip payload, whose exception the
outer handler of lines 186-187 catches).  Every failure path returns the
empty package list. -/
def fetchRepodata (tz : Int) (fv rn : String) (su : String → String)
    (repomdResult : Option (Option XElem))
    (primaryFetch : String → Option (Option XElem)) : List PackageData :=
  match repomdResult with
  | none => []
  | some doc =>
    match parseRepomd doc with
    | none => []
    | some loc =>
      match primaryFetch loc with
      | none => []
      | some none => []
      | some (some root) => parseRpmMetadata tz fv rn su root

/-! ### Version parsing and the libyear calculator

`calculate_libyear` parses versions with `packaging.version.parse`.  The
embedding models that parser restricted to dotted numeric release
segments (the only shape the recorded properties exercise); every other
input — including `None`, which the enrichment loop can pass — counts as
a parse failure, which the source converts to the result `0.0` via its
`except` handler. -/

structure PyVersion where
  release : List Nat
  deriving DecidableEq, Repr

/-- `Version.major`: the first release component, `0` when absent. -/
def PyVersion.major (v : PyVersion) : Nat := v.release.getD 0 0

/-- `Version.minor`: the second release component, `0` when absent. -/
def PyVersion.minor (v : PyVersion) : Nat := v.release.getD 1 0

/-- `Version.micro`: the third release component, `0` when absent. -/
def PyVersion.micro (v : PyVersion) : Nat := v.release.getD 2 0

/-- Split a character list at every occurrence of a separator
(`str.split(sep)`: n separators give n+1 pieces). -/
def splitOnChar (sep : Char) : List Char → List (List Char)
  | [] => [[]]
  | c :: r =>
    if c == sep then [] :: splitOnChar sep r
    else
      match splitOnChar sep r with
      | [] => [[c]]
      | h :: t => (c :: h) :: t

/-- `packaging.version.parse`, restricted to dotted numeric releases. -/
def parseVersion (s : String) : Option PyVersion :=
  (((splitOnChar '.') s.data).mapM charsToNat?).map PyVersion.mk

/-- The `>=` comparison of PEP 440 release tuples: lexicographic with
zero-padding on the right (equivalently, comparison after stripping
trailing zeros, which is what `packaging` does). -/
def releaseGe : List Nat → List Nat → Bool
  | [], [] => true
  | [], y :: ys => if 0 < y then false else releaseGe [] ys
  | x :: xs, [] => if 0 < x then true else releaseGe xs []
  | x :: xs, y :: ys =>
    if y < x then true else if x < y then false else releaseGe xs ys

/-- `LibYearCalculator.calculate_libyear`
(libyear_calculator.py lines 19-63).  Dates are day numbers; both present
(Python truthiness: `datetime`s are always truthy) selects the date
branch `delta.days / 365.25`.  Otherwise the version heuristic runs:
parse failure on either side returns `0.0` through the exception
handler; `v_current >= v_latest` returns `0.0`; else
`max(0, major_diff*1.0 + minor_diff*0.1 + patch_diff*0.01)`. -/
def calculate_libyear (currentVersion latestVersion : Option String)
    (releaseDateCurrent releaseDateLatest : Option Int) : ℚ :=
  match releaseDateCurrent, releaseDateLatest with
  | some c, some l => ((l - c : Int) : ℚ) / (1461 / 4 : ℚ)
  | _, _ =>
    match currentVersion.bind parseVersion, latestVersion.bind parseVersion with
    | some vc, some vl =>
      if releaseGe vc.release vl.release then 0
      else
        max 0 (((vl.major : ℚ) - (vc.major : ℚ)) * 1 +
          ((vl.minor : ℚ) - (vc.minor : ℚ)) * (1 / 10) +
          ((vl.micro : ℚ) - (vc.micro : ℚ)) * (1 / 100))
    | _, _ => 0

/-! ### Enrichment (`DataProcessor.save_to_database`, lines 187-293)

The upstream detectors are pure wrappers around HTTP calls whose
exceptions they swallow, so a run observes each of them as a partial
function from its arguments to an optional response; those observed
responses form the `Oracles` record. -/

structure Oracles where
  ghLatest : String → Option String
  ghReleaseDate : String → String → Option String
  ghLanguage : String → Option String
  pypiLatest : String → Option String
  pypiReleaseDate : String → String → Option String

/-- Python truthiness of an optional string: `None` and `""` are falsy. -/
def strTruthy : Option String → Bool
  | none => false
  | some s => !(s == "")

/-- `package.get("source_url") or package.get("website") or ""`
(data_processor.py line 217). -/
def sourceOf (p : PackageData) : String :=
  if p.source_url == "" then
    match p.website with
    | none => ""
    | some w => w
  else p.source_url

/-- A match of the regex `github\.com/([^/]+/[^/]+)` at the head of the
character list: the literal prefix, then two non-empty slash-free
segments separated by a slash. -/
def slugAt (l : List Char) : Option (List Char) :=
  if l.take 11 == "github.com/".data then
    let r := l.drop 11
    let s1 := r.takeWhile (fun c => !(c == '/'))
    if s1.isEmpty then none
    else
      match r.drop s1.length with
      | '/' :: r2 =>
        let s2 := r2.takeWhile (fun c => !(c == '/'))
        if s2.isEmpty then none else some (s1 ++ '/' :: s2)
      | _ => none
  else none

/-- `re.search`: the leftmost position where the pattern matches. -/
def searchSlug : List Char → Option (List Char)
  | [] => none
  | c :: rest =>
    match slugAt (c :: rest) with
    | some s => some s
    | none => searchSlug rest

/-- The `m.group(1)` of `re.search(r"github\.com/([^/]+/[^/]+)", source)`
(line 218). -/
def findGithubSlug (s : String) : Option String :=
  (searchSlug s.data).map List.asString

/-- `slug.rstrip(".git")` (line 220): strips any run of the *characters*
`.`, `g`, `i`, `t` from the right end — Python's `rstrip` takes a
character set, not a suffix. -/
def rstripGit (s : String) : String :=
  ((s.data.reverse.dropWhile
    (fun c => c == '.' || c == 'g' || c == 'i' || c == 't')).reverse).asString

/-- The owner/repo slug the GitHub step derives from a record, if any. -/
def slugOf (p : PackageData) : Option String :=
  (findGithubSlug (sourceOf p)).map rstripGit

/-- Gregorian leap year. -/
def isLeapYear (y : Nat) : Bool :=
  (y % 4 == 0 && y % 100 != 0) || y % 400 == 0

/-- Length of a month, as `datetime` validates it. -/
def daysInMonth (y m : Nat) : Nat :=
  if m == 2 then (if isLeapYear y then 29 else 28)
  else if m == 4 || m == 6 || m == 9 || m == 11 then 30
  else 31

/-- `datetime.strptime(s, "%Y-%m-%d")`, validated like the `datetime`
constructor; years are restricted to the range `%Y` accepts. -/
def parseYMD (s : String) : Option CDate :=
  match ((splitOnChar '-') s.data).map charsToNat? with
  | [some y, some m, some d] =>
    if 1 ≤ y ∧ y ≤ 9999 ∧ 1 ≤ m ∧ m ≤ 12 ∧ 1 ≤ d ∧ d ≤ daysInMonth y m then
      some ⟨(y : Int), (m : Int), (d : Int)⟩
    else none
  | _ => none

/-- `parse_iso_to_datetime` (data_processor.py lines 193-206), observed at
date precision: a `Z`-suffixed `"%Y-%m-%dT%H:%M:%SZ"` timestamp, an ISO
`fromisoformat` string and the date-only fallback on the part before `T`
all yield the calendar-date prefix; anything else yields `None`.
Compact ISO forms without dashes are not modelled. -/
def parseIsoToDatetime (s? : Option String) : Option CDate :=
  match s? with
  | none => none
  | some s =>
    if s == "" then none
    else parseYMD (((splitOnChar 'T') s.data).headD s.data).asString

/-- `DataProcessor.save_to_database` lines 210-212: stamp the collector
name and, when truthy, the distribution version on the record. -/
def tagPackage (cn : String) (dv : Option String) (p : PackageData) : PackageData :=
  { p with
    collector_name := some cn
    distribution_version :=
      if strTruthy dv then dv else p.distribution_version }

/-- The GitHub block of `DataProcessor.save_to_database` (lines 215-237):
it runs only when no upstream version is present and a slug was matched.
The release lookup guards the version/date writes, but the
repository-language lookup sits *outside* that guard (lines 229-235) and
runs for every matched slug, successful release lookup or not. -/
def ghStep (o : Oracles) (p : PackageData) : PackageData :=
  if strTruthy p.upstream_version then p
  else
    match slugOf p with
    | none => p
    | some repo =>
      let p1 :=
        match o.ghLatest repo with
        | none => p
        | some latest =>
          if latest == "" then p
          else
            let p' := { p with upstream_version := some latest }
            match parseIsoToDatetime (o.ghReleaseDate repo latest) with
            | none => p'
            | some d => { p' with upstream_release_date := some d }
      if strTruthy (o.ghLanguage repo) then
        { p1 with language := o.ghLanguage repo }
      else p1

/-- The PyPI block (lines 239-254): it runs only while the upstream
version is still absent after the GitHub step and the record has a
package name.  Its `setdefault("language", "Python")` never fires on
collector-produced records because they always carry a `language` key
(value `None`), so it is a no-op here. -/
def pypiStep (o : Oracles) (p : PackageData) : PackageData :=
  if strTruthy p.upstream_version then p
  else
    if p.package_name == "" then p
    else
      match o.pypiLatest p.package_name with
      | none => p
      | some latest =>
        if latest == "" then p
        else
          let q := { p with upstream_version := some latest }
          match parseIsoToDatetime (o.pypiReleaseDate p.package_name latest) with
          | none => q
          | some d => { q with upstream_release_date := some d }

/-- The upstream-resolution block of `DataProcessor.save_to_database`
(lines 214-254): the GitHub step, then the PyPI step on its result. -/
def resolveUpstream (o : Oracles) (p : PackageData) : PackageData :=
  pypiStep o (ghStep o p)

/-- Python's `round` (banker's rounding) to three decimal places, on the
exact value. -/
def pyRound3 (q : ℚ) : ℚ :=
  let x := q * 1000
  let f : Int := ⌊x⌋
  let r := x - (f : ℚ)
  let n : Int :=
    if r < 1 / 2 then f
    else if 1 / 2 < r then f + 1
    else if f % 2 = 0 then f else f + 1
  (n : ℚ) / 1000

/-- Python `int(·)` on a number: truncation toward zero (floor for
non-negative values, ceiling for negative ones). -/
def truncToInt (q : ℚ) : Int :=
  if q < 0 then -⌊-q⌋ else ⌊q⌋

/-- The libyear the calculator returns for a record inside
`save_to_database` (lines 257-282): versions are taken from the record
(`upstream_version` is present on every collector record, possibly
`None`), dates converted to day numbers. -/
def rawLibyearOf (p : PackageData) : ℚ :=
  calculate_libyear p.version p.upstream_version
    (p.system_release_date.map CDate.toDays)
    (p.upstream_release_date.map CDate.toDays)

/-- Lines 282-285: the stored `libyear` is rounded to three decimals,
`days_outdated` is `int(libyear * 365)` computed from the *unrounded*
libyear, and `is_outdated` compares the unrounded libyear with zero.
The `except` branch (lines 286-289) that would store `None` is
unreachable for well-formed records, as the calculator traps its own
exceptions. -/
def libyearFields (p : PackageData) : PackageData :=
  let ly := rawLibyearOf p
  { p with
    libyear := some (pyRound3 ly)
    days_outdated := some (truncToInt (ly * 365))
    is_outdated := decide (0 < ly) }

/-- The whole per-record enrichment of `save_to_database`. -/
def enrichPackage (o : Oracles) (cn : String) (dv : Option String)
    (p : PackageData) : PackageData :=
  libyearFields (resolveUpstream o (tagPackage cn dv p))

/-! ### Persistence (`DatabaseManager.save_packages_batch`)

A `packages` row, keyed by the table's
`UNIQUE KEY unique_package (repository_id, package_name, version)`
(models.py line 156).  Only the columns relevant to identity and the
metric are carried. -/

structure DBRow where
  repository_id : Int
  package_name : String
  version : Option String
  upstream_version : Option String
  libyear : Option ℚ
  days_outdated : Option Int
  is_outdated : Bool
  deriving DecidableEq, Repr

/-- The parameter tuple built at db_manager.py lines 291-306. -/
def toRow (repoId : Int) (p : PackageData) : DBRow :=
  { repository_id := repoId
    package_name := p.package_name
    version := p.version
    upstream_version := p.upstream_version
    libyear := p.libyear
    days_outdated := p.days_outdated
    is_outdated := p.is_outdated }

/-- The upsert key of a row. -/
def rowKey (r : DBRow) : Int × String × Option String :=
  (r.repository_id, r.package_name, r.version)

/-- `INSERT ... ON DUPLICATE KEY UPDATE` (lines 270-289): replace the row
with the same key, or append. -/
def upsertRow (rows : List DBRow) (r : DBRow) : List DBRow :=
  if rows.any (fun q => rowKey q == rowKey r) then
    rows.map (fun q => if rowKey q == rowKey r then r else q)
  else rows ++ [r]

/-- Fuel-structured chunking: with fuel at least the list's length this
splits the list into consecutive chunks of `n` (each positive step drops
at least one element, so the fuel never runs out in `chunkList`). -/
def chunkFuel (n : Nat) : Nat → List α → List (List α)
  | _, [] => []
  | 0, _ :: _ => []
  | fuel + 1, x :: xs =>
    if n = 0 then []
    else (x :: xs).take n :: chunkFuel n fuel ((x :: xs).drop n)

/-- `packages[i:i + batch_size]` for `i in range(0, total, batch_size)`
(line 265): split into consecutive chunks of `n`. -/
def chunkList (n : Nat) (l : List α) : List (List α) :=
  chunkFuel n l.length l

/-- The inner per-batch loop (lines 268-313): each record is executed on
the shared cursor; a row whose execute raises (`rowOk` false) is caught,
logged and skipped without affecting the rest, every other row updates
the pending transaction and bumps `saved_count`. -/
def execBatch (repoId : Int) (rowOk : PackageData → Bool)
    (batch : List PackageData) (acc : List DBRow × Nat) : List DBRow × Nat :=
  batch.foldl
    (fun pr p =>
      if rowOk p then (upsertRow pr.1 (toRow repoId p), pr.2 + 1) else pr)
    acc

/-- `DatabaseManager.save_packages_batch` combined with the transaction
semantics of `DatabaseConnection.get_cursor` (db_connection.py lines
64-92): the whole loop over every chunk runs on one connection with
`autocommit=False`, the single `connection.commit()` happens when the
`with` block exits, and any exception before that point (a lost
connection surfacing at commit, modelled by `commitOk = false`) triggers
`connection.rollback()`, discarding the writes of *all* chunks.  The
result is the committed row state paired with the returned
`saved_count`, which the outer handler (lines 318-321) returns even on
failure.  The source's `batch_size` parameter defaults to 500. -/
def save_packages_batch (commitOk : Bool) (rowOk : PackageData → Bool)
    (st : List DBRow) (packages : List PackageData) (repoId : Int)
    (batchSize : Nat) : List DBRow × Nat :=
  let res := (chunkList batchSize packages).foldl
    (fun acc b => execBatch repoId rowOk b acc) (st, 0)
  if commitOk then res else (st, res.2)

/-! ### Concrete fixtures used by the witnesses and counterexamples -/

/-- A namespaced source-package element for curl with
`ver=8.4.0, rel=1, build=1700000000`. -/
def curlElem : XElem :=
  .mk (qualTag true "package") [("type", "rpm")]
    [ .mk (qualTag true "name") [] [] (some "curl"),
      .mk (qualTag true "arch") [] [] (some "src"),
      .mk (qualTag true "version") [("ver", "8.4.0"), ("rel", "1")] [] none,
      .mk (qualTag true "time") [("build", "1700000000")] [] none ] none

/-- A primary listing containing exactly the curl source package. -/
def curlRoot : XElem := .mk "metadata" [] [curlElem] none

/-- The record `_parse_rpm_metadata` produces for `curlRoot` on a host
whose local timezone is UTC (offset 0). -/
def curlRecord : PackageData :=
  { package_name := "curl"
    display_name := "curl"
    version := some "8.4.0-1"
    description := some ""
    website := some ""
    source_url := ""
    system_release_date := some ⟨2023, 11, 14⟩
    upstream_version := none
    upstream_release_date := none
    libyear := none
    days_outdated := none
    language := none
    is_outdated := false
    fedora_version := "39"
    repo_name := "release"
    collector_name := none
    distribution_version := none }

/-- A valid listing whose only package element is of type rpm, carries a
name and a version, but has *no* architecture element at all. -/
def noArchElem : XElem :=
  .mk (qualTag true "package") [("type", "rpm")]
    [ .mk (qualTag true "name") [] [] (some "foo"),
      .mk (qualTag true "version") [("ver", "1.0"), ("rel", "2")] [] none ] none

/-- Root containing only `noArchElem`. -/
def noArchRoot : XElem := .mk "metadata" [] [noArchElem] none

/-- A namespaced listing whose only package is a *binary* package
(`arch = x86_64`). -/
def binOnlyRoot : XElem :=
  .mk "metadata" []
    [ .mk (qualTag true "package") [("type", "rpm")]
        [ .mk (qualTag true "name") [] [] (some "bash"),
          .mk (qualTag true "arch") [] [] (some "x86_64") ] none ] none

/-- A repomd manifest with data entries but none of type `"primary"`. -/
def noPrimaryRoot : XElem :=
  .mk "repomd" []
    [ .mk (repoTag true "data") [("type", "filelists")]
        [ .mk (repoTag true "location") [("href", "repodata/filelists.xml.gz")] [] none ] none ] none

/-- Oracles for a run in which every upstream lookup fails or misses. -/
def oraclesNone : Oracles :=
  { ghLatest := fun _ => none
    ghReleaseDate := fun _ _ => none
    ghLanguage := fun _ => none
    pypiLatest := fun _ => none
    pypiReleaseDate := fun _ _ => none }

/-- Oracles for a run in which the GitHub release lookup misses but the
repository-language lookup succeeds, and PyPI has a version: the mix the
resolution-order claim says cannot end up on one record. -/
def oraclesMixed : Oracles :=
  { ghLatest := fun _ => none
    ghReleaseDate := fun _ _ => none
    ghLanguage := fun _ => some "C"
    pypiLatest := fun _ => some "9.9.9"
    pypiReleaseDate := fun _ _ => some "2024-01-02" }

/-- A collector-shaped record template. -/
def basePackage : PackageData :=
  { package_name := "pkg"
    display_name := "pkg"
    version := none
    description := some ""
    website := some ""
    source_url := ""
    system_release_date := none
    upstream_version := none
    upstream_release_date := none
    libyear := none
    days_outdated := none
    language := none
    is_outdated := false
    fedora_version := "39"
    repo_name := "release"
    collector_name := none
    distribution_version := none }

/-- A record whose GitHub slug matches but whose upstream version will
come from PyPI. -/
def mixedPkg : PackageData :=
  { basePackage with
    package_name := "b"
    display_name := "b"
    version := some "1.0.0"
    source_url := "https://github.com/a/b" }

/-- A record with no dates and an unparseable version string. -/
def badVersionPkg : PackageData :=
  { basePackage with version := some "unknown" }

/-- A record whose repository and upstream release dates are one day
apart (libyear 1/365.25). -/
def oneDayPkg : PackageData :=
  { basePackage with
    version := some "1.0.0"
    upstream_version := some "1.0.0"
    system_release_date := some ⟨2023, 1, 1⟩
    upstream_release_date := some ⟨2023, 1, 2⟩ }

/-- A minimal record with a given name. -/
def rowPkg (name : String) : PackageData :=
  { basePackage with package_name := name, display_name := name }

/-- Three records: with batch size 2 they span two transactionless
"batches". -/
def threePkgs : List PackageData := [rowPkg "a", rowPkg "b", rowPkg "c"]

/-! ## Sanity checks on the embedding -/

example : daysFromCivil 1970 1 1 = 0 := by decide
example : civilFromDays 0 = ⟨1970, 1, 1⟩ := by decide
example : civilFromDays 19675 = ⟨2023, 11, 14⟩ := by decide
example : daysFromCivil 2020 1 1 = 18262 := by decide
example : daysFromCivil 2022 1 1 = 18993 := by decide
example : parseVersion "1.2.0" = some ⟨[1, 2, 0]⟩ := by decide
example : parseVersion "x1" = none := by decide
example : pyInt? " 1700000000 " = some 1700000000 := by decide
example : pyInt? "12:00" = none := by decide
example : findGithubSlug "https://github.com/a/b" = some "a/b" := by decide
example : rstripGit "torvalds/linux.git" = "torvalds/linux" := by decide
example : parseIsoToDatetime (some "2024-01-02T10:20:30Z") = some ⟨2024, 1, 2⟩ := by decide
example : parseIsoToDatetime (some "not a date") = none := by decide

/-! ## Claim theorems -/

/-- **C2.** For every pair of versions and every pair of known dates,
`calculate_libyear` returns `(upstreamDate − currentDate).days / 365.25`
(with `365.25 = 1461/4`); the value is signed and never clamped, so equal
dates give `0.0`, current 2020-01-01 against upstream 2022-01-01 gives
`731/365.25`, and swapping those dates gives the negative of that value
unchanged. -/
theorem c2_calculate_date_branch :
    (∀ (cv lv : Option String) (c l : Int),
      calculate_libyear cv lv (some c) (some l) = ((l - c : Int) : ℚ) / (1461 / 4 : ℚ)) ∧
    (∀ (v : Option String) (d : Int),
      calculate_libyear v v (some d) (some d) = 0) ∧
    calculate_libyear (some "1.0.0") (some "2.0.0")
      (some (daysFromCivil 2020 1 1)) (some (daysFromCivil 2022 1 1)) = 731 / (1461 / 4 : ℚ) ∧
    calculate_libyear (some "2.0.0") (some "1.0.0")
      (some (daysFromCivil 2022 1 1)) (some (daysFromCivil 2020 1 1)) = -(731 / (1461 / 4 : ℚ)) := by
  have hform : ∀ (cv lv : Option String) (c l : Int),
      calculate_libyear cv lv (some c) (some l) = ((l - c : Int) : ℚ) / (1461 / 4 : ℚ) :=
    fun cv lv c l => rfl
  have h20 : daysFromCivil 2020 1 1 = 18262 := by decide
  have h22 : daysFromCivil 2022 1 1 = 18993 := by decide
  refine ⟨hform, fun v d => ?_, ?_, ?_⟩
  · rw [hform]; norm_num
  · rw [hform, h20, h22]; norm_num
  · rw [hform, h20, h22]; norm_num

/-- **C6.** When no dates are available, `calculate_libyear` parses both
version strings; if current ≥ upstream it returns `0.0`, otherwise
`max(0, major_diff*1.0 + minor_diff*0.1 + patch_diff*0.01)`; current
`"1.2.0"` against upstream `"1.3.5"` gives exactly `0.15 = 3/20`; and a
parse failure on either side yields `0.0` instead of an exception. -/
theorem c6_version_heuristic :
    (∀ (cv lv : String) (vc vl : PyVersion),
      parseVersion cv = some vc → parseVersion lv = some vl →
      calculate_libyear (some cv) (some lv) none none =
        (if releaseGe vc.release vl.release then 0
         else max 0 (((vl.major : ℚ) - (vc.major : ℚ)) * 1 +
           ((vl.minor : ℚ) - (vc.minor : ℚ)) * (1 / 10) +
           ((vl.micro : ℚ) - (vc.micro : ℚ)) * (1 / 100)))) ∧
    calculate_libyear (some "1.2.0") (some "1.3.5") none none = 3 / 20 ∧
    (∀ (cv lv : String), parseVersion cv = none ∨ parseVersion lv = none →
      calculate_libyear (some cv) (some lv) none none = 0) := by
  have hgen : ∀ (cv lv : String) (vc vl : PyVersion),
      parseVersion cv = some vc → parseVersion lv = some vl →
      calculate_libyear (some cv) (some lv) none none =
        (if releaseGe vc.release vl.release then 0
         else max 0 (((vl.major : ℚ) - (vc.major : ℚ)) * 1 +
           ((vl.minor : ℚ) - (vc.minor : ℚ)) * (1 / 10) +
           ((vl.micro : ℚ) - (vc.micro : ℚ)) * (1 / 100))) := by
    intro cv lv vc vl h1 h2
    have hb1 : (some cv).bind parseVersion = some vc := h1
    have hb2 : (some lv).bind parseVersion = some vl := h2
    simp only [calculate_libyear]
    rw [hb1, hb2]
  refine ⟨hgen, ?_, ?_⟩
  · have h1 : parseVersion "1.2.0" = some ⟨[1, 2, 0]⟩ := by decide
    have h2 : parseVersion "1.3.5" = some ⟨[1, 3, 5]⟩ := by decide
    rw [hgen "1.2.0" "1.3.5" ⟨[1, 2, 0]⟩ ⟨[1, 3, 5]⟩ h1 h2]
    norm_num [releaseGe, PyVersion.major, PyVersion.minor, PyVersion.micro]
  · intro cv lv h
    rcases h with h | h
    · have hb : (some cv).bind parseVersion = (none : Option PyVersion) := h
      simp only [calculate_libyear]
      rw [hb]
    · have hb : (some lv).bind parseVersion = (none : Option PyVersion) := h
      simp only [calculate_libyear]
      rw [hb]
      rcases (some cv).bind parseVersion with _ | v <;> rfl

/-- Witness for `c6_version_heuristic`: both hypotheses of its first
conjunct hold at `"1.2.0"`/`"1.3.5"` and the conclusion is obtained by
applying the theorem there. -/
theorem c6_version_heuristic_witness :
    parseVersion "1.2.0" = some ⟨[1, 2, 0]⟩ ∧
    parseVersion "1.3.5" = some ⟨[1, 3, 5]⟩ ∧
    calculate_libyear (some "1.2.0") (some "1.3.5") none none =
      (if releaseGe (PyVersion.mk [1, 2, 0]).release (PyVersion.mk [1, 3, 5]).release then 0
       else max 0 ((((PyVersion.mk [1, 3, 5]).major : ℚ) - ((PyVersion.mk [1, 2, 0]).major : ℚ)) * 1 +
         (((PyVersion.mk [1, 3, 5]).minor : ℚ) - ((PyVersion.mk [1, 2, 0]).minor : ℚ)) * (1 / 10) +
         (((PyVersion.mk [1, 3, 5]).micro : ℚ) - ((PyVersion.mk [1, 2, 0]).micro : ℚ)) * (1 / 100))) :=
  ⟨by decide, by decide,
    c6_version_heuristic.1 "1.2.0" "1.3.5" ⟨[1, 2, 0]⟩ ⟨[1, 3, 5]⟩ (by decide) (by decide)⟩

/-- **C1** (counterexample).  The claim fixes the parsed release date of
the curl listing to the *UTC* calendar date 2023-11-14, but the source
converts the build timestamp with `datetime.fromtimestamp`, which uses
the host's local timezone: on a host at UTC+2 (offset 7200 s, a real
environment) the very same listing parses to 2023-11-15. -/
theorem c1_counterexample :
    (parseRpmMetadata 7200 "39" "release" (fun _ => "") curlRoot).map
      (fun p => p.system_release_date) = [some ⟨2023, 11, 15⟩] ∧
    (⟨2023, 11, 15⟩ : CDate) ≠ ⟨2023, 11, 14⟩ := by
  constructor
  · decide
  · decide

/-- **C1** (amended).  For the singleton curl listing, `parse` yields
exactly one record with name `"curl"` and version `"8.4.0-1"`
(synthesized as ver-rel), whose release date is the calendar date of the
build timestamp 1700000000 converted in the host's *local* timezone
(epoch seconds shifted by the host's UTC offset); on a UTC host that date
is 2023-11-14. -/
theorem c1_parse_curl_local_date (tz : Int) (fv rn : String) (su : String → String) :
    parseRpmMetadata tz fv rn su curlRoot =
      [{ package_name := "curl"
         display_name := "curl"
         version := some "8.4.0-1"
         description := some ""
         website := some ""
         source_url := su "curl"
         system_release_date := some (civilFromDays (Int.fdiv (1700000000 + tz) 86400))
         upstream_version := none
         upstream_release_date := none
         libyear := none
         days_outdated := none
         language := none
         is_outdated := false
         fedora_version := fv
         repo_name := rn
         collector_name := none
         distribution_version := none }] ∧
    civilFromDays (Int.fdiv (1700000000 + 0) 86400) = ⟨2023, 11, 14⟩ := by
  constructor
  · rfl
  · decide

/-- A failed architecture check makes `processElem` skip the element. -/
theorem processElem_of_archOk_false {ns : Bool} {tz : Int} {fv rn : String}
    {su : String → String} {e : XElem} (h : archOk ns e = false) :
    processElem ns tz fv rn su e = none := by
  simp [processElem, h]

/-- A blank or missing name makes `processElem` skip the element. -/
theorem processElem_of_nameBlank {ns : Bool} {tz : Int} {fv rn : String}
    {su : String → String} {e : XElem} (h : nameBlank ns e = true) :
    processElem ns tz fv rn su e = none := by
  unfold nameBlank at h
  unfold processElem
  rcases hp : pyText (e.findChild (qualTag ns "name")) with _ | nm
  · simp [hp]
  · rw [hp] at h
    have h' : nm = "" := by simpa using h
    subst h'
    simp [hp]

/-- Any element `processElem` keeps passed the architecture check. -/
theorem archOk_of_processElem_some {ns : Bool} {tz : Int} {fv rn : String}
    {su : String → String} {e : XElem} {pkg : PackageData}
    (h : processElem ns tz fv rn su e = some pkg) : archOk ns e = true := by
  by_contra hc
  rw [processElem_of_archOk_false (Bool.not_eq_true _ ▸ hc)] at h
  exact Option.noConfusion h

/-- **C3** (counterexample).  The claim says the output contains only
records whose element *carried* the source-architecture marker, but the
source keeps an element whose `arch` child is missing entirely: a listing
whose only package element has a name and no `arch` element parses to one
record. -/
theorem c3_counterexample :
    (parseRpmMetadata 0 "39" "release" (fun _ => "") noArchRoot).map
      (fun p => p.package_name) = ["foo"] ∧
    (noArchElem.findChild (qualTag true "arch")).isNone = true := by
  constructor
  · decide
  · decide

/-- **C3** (amended).  Every record in the parser's output comes from an
element whose architecture marker, *when present*, equals `"src"`
(elements lacking the marker are also kept); an element whose marker is
anything else is silently skipped and never contributes a record, and an
element lacking a name is dropped without raising. -/
theorem c3_arch_filter (tz : Int) (fv rn : String) (su : String → String)
    (root : XElem) (pkg : PackageData)
    (hmem : pkg ∈ parseRpmMetadata tz fv rn su root) :
    ((∃ e ∈ firstPassElems root,
        archOk true e = true ∧ processElem true tz fv rn su e = some pkg) ∨
     (∃ e ∈ plainPackages root,
        archOk false e = true ∧ processElem false tz fv rn su e = some pkg)) ∧
    (∀ (ns : Bool) (e : XElem), archOk ns e = false →
      processElem ns tz fv rn su e = none) ∧
    (∀ (ns : Bool) (e : XElem), nameBlank ns e = true →
      processElem ns tz fv rn su e = none) := by
  refine ⟨?_, fun ns e h => processElem_of_archOk_false h,
    fun ns e h => processElem_of_nameBlank h⟩
  unfold parseRpmMetadata at hmem
  by_cases hf : fallbackRan tz fv rn su root
  · rw [if_pos hf] at hmem
    rcases List.mem_filterMap.mp hmem with ⟨e, he, hpe⟩
    exact Or.inr ⟨e, he, archOk_of_processElem_some hpe, hpe⟩
  · rw [if_neg hf] at hmem
    unfold firstPassPackages at hmem
    rcases List.mem_filterMap.mp hmem with ⟨e, he, hpe⟩
    exact Or.inl ⟨e, he, archOk_of_processElem_some hpe, hpe⟩

/-- Witness for `c3_arch_filter`: the curl record is in the parse of the
curl listing, and the theorem applied there locates its source element. -/
theorem c3_arch_filter_witness :
    curlRecord ∈ parseRpmMetadata 0 "39" "release" (fun _ => "") curlRoot ∧
    ((∃ e ∈ firstPassElems curlRoot,
        archOk true e = true ∧ processElem true 0 "39" "release" (fun _ => "") e = some curlRecord) ∨
     (∃ e ∈ plainPackages curlRoot,
        archOk false e = true ∧ processElem false 0 "39" "release" (fun _ => "") e = some curlRecord)) :=
  ⟨by decide,
    (c3_arch_filter 0 "39" "release" (fun _ => "") curlRoot curlRecord (by decide)).1⟩

/-- **C4** (counterexample).  The claim allows the unnamespaced query to
run only when the namespaced query yielded zero matching elements, but
the source's fallback guard is `if not packages:` — it tests the parsed
*output*.  On a namespaced listing whose only package is a binary one,
the namespaced query yields one element, every match is filtered out, and
the unnamespaced fallback query still runs. -/
theorem c4_counterexample :
    fallbackRan 0 "39" "release" (fun _ => "") binOnlyRoot = true ∧
    (nsPackages binOnlyRoot).length = 1 := by
  constructor
  · decide
  · decide

/-- **C4** (amended).  The parser attempts the namespaced package query
first; the unnamespaced fallback parse runs exactly when the first
(namespaced) pass produced zero records — because the namespaced query
matched nothing or because every match was filtered out — and the two
result sets are never merged: the output is entirely the first pass's or
entirely the fallback's. -/
theorem c4_fallback_behavior (tz : Int) (fv rn : String) (su : String → String)
    (root : XElem) :
    (nsPackages root ≠ [] → firstPassElems root = nsPackages root) ∧
    ((parseRpmMetadata tz fv rn su root = firstPassPackages tz fv rn su root ∧
        firstPassPackages tz fv rn su root ≠ []) ∨
     (parseRpmMetadata tz fv rn su root =
        (plainPackages root).filterMap (processElem false tz fv rn su) ∧
        firstPassPackages tz fv rn su root = [])) := by
  constructor
  · intro h
    unfold firstPassElems
    rw [if_neg (by simpa [List.isEmpty_iff] using h)]
  · by_cases hf : fallbackRan tz fv rn su root
    · refine Or.inr ⟨?_, ?_⟩
      · unfold parseRpmMetadata
        rw [if_pos hf]
      · exact List.isEmpty_iff.mp hf
    · refine Or.inl ⟨?_, ?_⟩
      · unfold parseRpmMetadata
        rw [if_neg hf]
      · intro hnil
        exact hf (by simpa [fallbackRan, List.isEmpty_iff] using hnil)

/-- Witness for `c4_fallback_behavior`: on the curl listing the
namespaced query is non-empty, the theorem applied there shows the
namespaced element list is used, and the output is the (non-empty) first
pass. -/
theorem c4_fallback_behavior_witness :
    (nsPackages curlRoot).length = 1 ∧
    firstPassElems curlRoot = nsPackages curlRoot := by
  have hlen : (nsPackages curlRoot).length = 1 := by decide
  refine ⟨hlen, ?_⟩
  exact (c4_fallback_behavior 0 "39" "release" (fun _ => "") curlRoot).1
    (List.ne_nil_of_length_pos (by omega))

/-- The PyPI step never writes the language field (its `setdefault` is a
no-op on collector records). -/
theorem pypiStep_language (o : Oracles) (q : PackageData) :
    (pypiStep o q).language = q.language := by
  unfold pypiStep
  split
  · rfl
  split
  · rfl
  split
  · rfl
  split
  · rfl
  split <;> rfl

/-- The PyPI step leaves a record with a truthy upstream version alone. -/
theorem pypiStep_of_truthy (o : Oracles) (q : PackageData)
    (h : strTruthy q.upstream_version = true) : pypiStep o q = q := by
  unfold pypiStep
  rw [h]
  rfl

/-- **C5** (counterexample).  The claim says the first resolver returning
a version determines version, date *and language* outright and that
partial results are never combined — but when the GitHub release lookup
returns nothing while the repository-language lookup succeeds, and PyPI
then supplies a version, the stored record mixes PyPI's version and date
with GitHub's language. -/
theorem c5_counterexample :
    (resolveUpstream oraclesMixed mixedPkg).upstream_version = some "9.9.9" ∧
    (resolveUpstream oraclesMixed mixedPkg).upstream_release_date = some ⟨2024, 1, 2⟩ ∧
    (resolveUpstream oraclesMixed mixedPkg).language = some "C" ∧
    oraclesMixed.ghLatest "a/b" = none ∧
    oraclesMixed.pypiLatest "b" = some "9.9.9" := by
  refine ⟨by decide, by decide, by decide, by decide, by decide⟩

/-- **C5** (amended).  Resolution runs only when no upstream version is
present; the slug-based (GitHub) lookup is tried first and, when it
returns a truthy version, determines the record's upstream version and
date outright; the name-based (PyPI) lookup is consulted only when the
slug lookup produced no version, and then its version and date win; but
the language field is decided solely by the GitHub repository-language
lookup whenever a slug matched — even when the version was resolved by
PyPI — and the PyPI step never writes it. -/
theorem c5_resolution_order (o : Oracles) (p : PackageData) :
    (strTruthy p.upstream_version = true → resolveUpstream o p = p) ∧
    (∀ repo latest, strTruthy p.upstream_version = false → slugOf p = some repo →
      o.ghLatest repo = some latest → latest ≠ "" →
      (resolveUpstream o p).upstream_version = some latest ∧
      (resolveUpstream o p).upstream_release_date =
        (match parseIsoToDatetime (o.ghReleaseDate repo latest) with
         | some d => some d
         | none => p.upstream_release_date)) ∧
    (∀ latest, strTruthy p.upstream_version = false →
      strTruthy ((slugOf p).bind o.ghLatest) = false →
      p.package_name ≠ "" → o.pypiLatest p.package_name = some latest → latest ≠ "" →
      (resolveUpstream o p).upstream_version = some latest ∧
      (resolveUpstream o p).upstream_release_date =
        (match parseIsoToDatetime (o.pypiReleaseDate p.package_name latest) with
         | some d => some d
         | none => p.upstream_release_date)) ∧
    (strTruthy p.upstream_version = false → ∀ repo, slugOf p = some repo →
      (resolveUpstream o p).language =
        (if strTruthy (o.ghLanguage repo) = true then o.ghLanguage repo else p.language)) := by
  refine ⟨?_, ?_, ?_, ?_⟩
  · intro h
    have hg : ghStep o p = p := by
      unfold ghStep
      rw [h]
      rfl
    rw [resolveUpstream, hg, pypiStep_of_truthy o p h]
  · intro repo latest h0 hslug hgh hne
    have hlt : (latest == "") = false := by simpa using hne
    have htr : strTruthy (some latest) = true := by simp [strTruthy, hne]
    rcases hpi : parseIsoToDatetime (o.ghReleaseDate repo latest) with _ | d <;>
      by_cases hlang : strTruthy (o.ghLanguage repo) = true <;>
        simp [resolveUpstream, ghStep, pypiStep, h0, hslug, hgh, hlt, htr, hpi, hlang]
  · intro latest h0 hgh hname hpp hne
    have hnb : (p.package_name == "") = false := by simpa using hname
    have hlt : (latest == "") = false := by simpa using hne
    rcases hslug : slugOf p with _ | repo
    · rcases hpi : parseIsoToDatetime (o.pypiReleaseDate p.package_name latest) with _ | d <;>
        simp [resolveUpstream, ghStep, pypiStep, h0, hslug, hnb, hpp, hlt, hpi]
    · rw [hslug] at hgh
      have hgh' : strTruthy (o.ghLatest repo) = false := hgh
      rcases hl : o.ghLatest repo with _ | glatest
      · by_cases hlang : strTruthy (o.ghLanguage repo) = true <;>
          rcases hpi : parseIsoToDatetime (o.pypiReleaseDate p.package_name latest) with _ | d <;>
            simp [resolveUpstream, ghStep, pypiStep, h0, hslug, hl, hlang, hnb, hpp, hlt, hpi]
      · rw [hl] at hgh'
        have hgl : (glatest == "") = true := by simpa [strTruthy] using hgh'
        by_cases hlang : strTruthy (o.ghLanguage repo) = true <;>
          rcases hpi : parseIsoToDatetime (o.pypiReleaseDate p.package_name latest) with _ | d <;>
            simp [resolveUpstream, ghStep, pypiStep, h0, hslug, hl, hgl, hlang, hnb, hpp, hlt, hpi]
  · intro h0 repo hslug
    rcases hl : o.ghLatest repo with _ | glatest
    · by_cases hlang : strTruthy (o.ghLanguage repo) = true <;>
        simp [resolveUpstream, pypiStep_language, ghStep, h0, hslug, hl, hlang]
    · by_cases hge : (glatest == "") = true
      · by_cases hlang : strTruthy (o.ghLanguage repo) = true <;>
          simp [resolveUpstream, pypiStep_language, ghStep, h0, hslug, hl, hge, hlang]
      · rcases hpi : parseIsoToDatetime (o.ghReleaseDate repo glatest) with _ | d <;>
          by_cases hlang : strTruthy (o.ghLanguage repo) = true <;>
            simp [resolveUpstream, pypiStep_language, ghStep, h0, hslug, hl, hge, hpi, hlang]

/-- Witness for `c5_resolution_order`: with the mixed oracles and the
GitHub-slugged record, the hypotheses of the PyPI conjunct hold
concretely and applying the theorem yields the resolved version. -/
theorem c5_resolution_order_witness :
    strTruthy mixedPkg.upstream_version = false ∧
    strTruthy ((slugOf mixedPkg).bind oraclesMixed.ghLatest) = false ∧
    (resolveUpstream oraclesMixed mixedPkg).upstream_version = some "9.9.9" := by
  refine ⟨by decide, by decide, ?_⟩
  exact ((c5_resolution_order oraclesMixed mixedPkg).2.2.1 "9.9.9" (by decide) (by decide)
    (by decide) (by decide) (by decide)).1

/-- Rounding the exact value zero gives zero. -/
theorem pyRound3_zero : pyRound3 0 = 0 := by
  unfold pyRound3
  norm_num

/-- **C7** (counterexample).  The claim makes `libyear` null when neither
dates nor a resolvable version comparison exist, but the enrichment loop
always stores a number: for a record with no dates, no resolvable
upstream and an unparseable version string, the calculator's exception
handler yields `0.0`, which is stored — not null. -/
theorem c7_counterexample :
    (enrichPackage oraclesNone "fedora" none badVersionPkg).libyear = some 0 ∧
    badVersionPkg.system_release_date = none ∧
    badVersionPkg.upstream_release_date = none ∧
    badVersionPkg.upstream_version = none ∧
    parseVersion "unknown" = none ∧
    (some (0 : ℚ) ≠ (none : Option ℚ)) := by
  have hres : resolveUpstream oraclesNone (tagPackage "fedora" none badVersionPkg) =
      tagPackage "fedora" none badVersionPkg := rfl
  have hraw : rawLibyearOf (tagPackage "fedora" none badVersionPkg) = 0 := rfl
  refine ⟨?_, rfl, rfl, rfl, by decide, by simp⟩
  show (libyearFields (resolveUpstream oraclesNone (tagPackage "fedora" none badVersionPkg))).libyear
      = some 0
  rw [hres]
  show some (pyRound3 (rawLibyearOf (tagPackage "fedora" none badVersionPkg))) = some 0
  rw [hraw, pyRound3_zero]

/-- **C7** (amended).  For every record the enrichment loop processes,
the stored `libyear` is non-null (it is `0.0` whenever neither dates nor
a resolvable version comparison exist; the handler that would store null
is dead code for well-formed records), and the is-outdated flag is true
iff the unrounded libyear computed for the record is strictly positive. -/
theorem c7_libyear_invariant (o : Oracles) (cn : String) (dv : Option String)
    (p : PackageData) :
    ((enrichPackage o cn dv p).libyear).isSome = true ∧
    ((enrichPackage o cn dv p).is_outdated = true ↔
      0 < rawLibyearOf (resolveUpstream o (tagPackage cn dv p))) := by
  constructor
  · rfl
  · show (decide (0 < rawLibyearOf (resolveUpstream o (tagPackage cn dv p))) = true) ↔ _
    exact decide_eq_true_iff

/-- **C10** (counterexample).  The claim computes days-outdated from the
libyear *after* its 3-decimal rounding, but the source multiplies the
unrounded value: for dates one day apart the raw libyear is `4/1461`, the
stored (rounded) libyear is `0.003`, the stored days-outdated is
`int((4/1461)*365) = 0`, while the claimed `int(0.003*365)` would be 1. -/
theorem c10_counterexample :
    (enrichPackage oraclesNone "fedora" none oneDayPkg).days_outdated = some 0 ∧
    (enrichPackage oraclesNone "fedora" none oneDayPkg).libyear = some (3 / 1000 : ℚ) ∧
    truncToInt ((3 / 1000 : ℚ) * 365) = 1 := by
  have hres : resolveUpstream oraclesNone (tagPackage "fedora" none oneDayPkg) =
      tagPackage "fedora" none oneDayPkg := rfl
  have hraw0 : rawLibyearOf (tagPackage "fedora" none oneDayPkg) =
      ((CDate.toDays ⟨2023, 1, 2⟩ - CDate.toDays ⟨2023, 1, 1⟩ : Int) : ℚ) / (1461 / 4 : ℚ) := rfl
  have hdays : (CDate.toDays ⟨2023, 1, 2⟩ - CDate.toDays ⟨2023, 1, 1⟩ : Int) = 1 := by decide
  have hraw : rawLibyearOf (tagPackage "fedora" none oneDayPkg) = 4 / 1461 := by
    rw [hraw0, hdays]
    norm_num
  refine ⟨?_, ?_, ?_⟩
  · show some (truncToInt (rawLibyearOf (resolveUpstream oraclesNone
      (tagPackage "fedora" none oneDayPkg)) * 365)) = some 0
    rw [hres, hraw]
    have hfloor : ⌊(4 / 1461 : ℚ) * 365⌋ = 0 := by
      rw [Int.floor_eq_iff]
      constructor <;> norm_num
    rw [show truncToInt ((4 / 1461 : ℚ) * 365) = ⌊(4 / 1461 : ℚ) * 365⌋ from
      if_neg (by norm_num), hfloor]
  · show some (pyRound3 (rawLibyearOf (resolveUpstream oraclesNone
      (tagPackage "fedora" none oneDayPkg)))) = some (3 / 1000 : ℚ)
    rw [hres, hraw]
    have hfloor : ⌊(4 / 1461 : ℚ) * 1000⌋ = 2 := by
      rw [Int.floor_eq_iff]
      constructor <;> norm_num
    simp only [pyRound3, hfloor]
    norm_num
  · have hfloor : ⌊(3 / 1000 : ℚ) * 365⌋ = 1 := by
      rw [Int.floor_eq_iff]
      constructor <;> norm_num
    rw [show truncToInt ((3 / 1000 : ℚ) * 365) = ⌊(3 / 1000 : ℚ) * 365⌋ from
      if_neg (by norm_num), hfloor]

/-- **C10** (amended).  For every enriched record, days-outdated equals
`int(libyear * 365)` computed from the *unrounded* libyear (the stored
libyear field is separately rounded to three decimals), with `int`
truncating toward zero — so on the negative half-unit `int` gives 0 where
flooring would give −1. -/
theorem c10_days_outdated_unrounded (o : Oracles) (cn : String)
    (dv : Option String) (p : PackageData) :
    (enrichPackage o cn dv p).days_outdated =
      some (truncToInt (rawLibyearOf (resolveUpstream o (tagPackage cn dv p)) * 365)) ∧
    (enrichPackage o cn dv p).libyear =
      some (pyRound3 (rawLibyearOf (resolveUpstream o (tagPackage cn dv p)))) ∧
    truncToInt (-(1 / 2) : ℚ) = 0 ∧
    ⌊(-(1 / 2) : ℚ)⌋ = -1 := by
  refine ⟨rfl, rfl, ?_, ?_⟩
  · rw [show truncToInt (-(1 / 2) : ℚ) = -⌊-(-(1 / 2) : ℚ)⌋ from if_pos (by norm_num)]
    rw [show (-(-(1 / 2) : ℚ)) = 1 / 2 by norm_num]
    rw [show ⌊(1 / 2 : ℚ)⌋ = 0 from by rw [Int.floor_eq_iff]; constructor <;> norm_num]
    norm_num
  · rw [Int.floor_eq_iff]
    constructor <;> norm_num

/-- **C8** (code bug).  The claim — and the function's own docstring
("Number of packages to insert per transaction") and comment ("Process in
batches to avoid long-running transactions") — say each batch is its own
committed write transaction, so batches committed before a failure
persist.  But the loop over all batches runs inside a single
`get_cursor` context: one connection, `autocommit=False`, one
`connection.commit()` at exit, and `rollback()` of everything on
failure.  Concretely, three records with batch size 2 form two batches;
on a successful run all three rows are committed at once, while a
commit-time failure leaves the table empty even though the first batch
had "completed" (and `saved_count` still reports 3). -/
theorem c8_single_transaction_rollback :
    chunkList 2 threePkgs = [[rowPkg "a", rowPkg "b"], [rowPkg "c"]] ∧
    save_packages_batch true (fun _ => true) [] threePkgs 7 2 =
      ([toRow 7 (rowPkg "a"), toRow 7 (rowPkg "b"), toRow 7 (rowPkg "c")], 3) ∧
    save_packages_batch false (fun _ => true) [] threePkgs 7 2 = ([], 3) := by
  refine ⟨by decide, by decide, by decide⟩

/-- Every `data` entry of a manifest without a primary entry fails the
type test, so both scan loops of `_parse_repomd` fall through. -/
theorem repomdScan_eq_none {root : XElem} (h : hasPrimaryEntry root = false)
    (ns : Bool) : repomdScan ns root = none := by
  unfold repomdScan
  rw [List.findSome?_eq_none_iff]
  intro d hd
  have hd' := List.of_mem_filter hd
  have hmem := List.mem_of_mem_filter hd
  unfold hasPrimaryEntry at h
  rw [List.any_eq_false] at h
  have := h d hmem
  rcases ht : (d.attrGet "type" == some "primary") with _ | _
  · simp [ht]
  · exfalso
    apply this
    rw [ht]
    cases ns
    · simp at hd'
      simp [hd']
    · simp at hd'
      simp [hd']

/-- **C9.**  For every manifest document lacking an entry of type
`"primary"`, the fetch fails deterministically: `_parse_repomd` returns
`None` and `_fetch_repodata` returns the empty package list (its handlers
catch everything, so no exception escapes — the embedding is total). -/
theorem c9_missing_primary_fails (root : XElem)
    (h : hasPrimaryEntry root = false) (tz : Int) (fv rn : String)
    (su : String → String) (primaryFetch : String → Option (Option XElem)) :
    parseRepomd (some root) = none ∧
    fetchRepodata tz fv rn su (some (some root)) primaryFetch = [] := by
  have hp : parseRepomd (some root) = none := by
    show (match repomdScan true root with
          | some href => href
          | none =>
            match repomdScan false root with
            | some href => href
            | none => none) = none
    rw [repomdScan_eq_none h true, repomdScan_eq_none h false]
  refine ⟨hp, ?_⟩
  show (match parseRepomd (some root) with
        | none => []
        | some loc =>
          match primaryFetch loc with
          | none => []
          | some none => []
          | some (some root) => parseRpmMetadata tz fv rn su root) = []
  rw [hp]

/-- Witness for `c9_missing_primary_fails`: a manifest whose only data
entry is of type `"filelists"` has no primary entry, and the theorem
applied there yields the empty fetch result. -/
theorem c9_missing_primary_fails_witness :
    hasPrimaryEntry noPrimaryRoot = false ∧
    fetchRepodata 0 "39" "release" (fun _ => "") (some (some noPrimaryRoot))
      (fun _ => none) = [] :=
  ⟨by decide,
    (c9_missing_primary_fails noPrimaryRoot (by decide) 0 "39" "release"
      (fun _ => "") (fun _ => none)).2⟩

end PkgHarvest
